import Mathlib

/-
Verification development for the gva-slack-sickbot repository.

The repository consists of four near-duplicate Slack slash-command endpoints
(emojify, sickbot with after(), plain sickbot, farming advice) sharing one
protocol: HMAC signature verification with a replay window, a request
admission pipeline with a URL-verification handshake short-circuit,
an immediate JSON acknowledgment, and a deferred delivery task that calls a
text-generation API and posts the result (or a fallback) to a callback URL.

The definitions below are a shallow embedding of that code.  Platform
builtins used by the code (Buffer/UTF-8, Number(), URLSearchParams,
JSON.stringify, crypto HMAC-SHA256, crypto.timingSafeEqual) are modelled
explicitly; each such model carries a doc comment naming the builtin and any
restriction of the model.
-/

namespace Sickbot

/-! ## JavaScript value model -/

/-- Truthiness of a nullable JavaScript string: `null` and the empty string
are falsy, every other string is truthy. -/
def jsStrTruthy (s : Option String) : Bool :=
  match s with
  | none => false
  | some t => t ≠ ""

/-- Modelled from JavaScript `String.prototype.trim`: remove leading and
trailing whitespace characters. -/
def jsTrim (s : String) : String :=
  String.mk
    (((s.toList.dropWhile Char.isWhitespace).reverse.dropWhile Char.isWhitespace).reverse)

/-- Exact decimal number with value `num / 10 ^ exp10`, representing the
JavaScript numbers that arise from decimal literals. -/
structure JsNum where
  num : Int
  exp10 : Nat
deriving DecidableEq, Repr

/-- Digit run to a natural number; `none` when a non-digit appears. -/
def digitsToNat (cs : List Char) : Option Nat :=
  cs.foldl
    (fun acc c =>
      match acc with
      | none => none
      | some n => if c.isDigit then some (n * 10 + (c.toNat - 48)) else none)
    (some 0)

/-- Unsigned decimal literal (digits, optionally with a fractional part,
also the forms `".5"` and `"5."`) to an exact magnitude and decimal
exponent. -/
def parseDecimalMagnitude (cs : List Char) : Option (Nat × Nat) :=
  let intPart := cs.takeWhile (fun c => c.isDigit)
  let rest := cs.dropWhile (fun c => c.isDigit)
  match rest with
  | [] =>
    if intPart.isEmpty then none
    else (digitsToNat intPart).map (fun n => (n, 0))
  | c :: fracPart =>
    if c = '.' ∧ fracPart.all (fun d => d.isDigit) ∧
        ¬ (intPart.isEmpty ∧ fracPart.isEmpty) then
      match digitsToNat intPart, digitsToNat fracPart with
      | some i, some f => some (i * 10 ^ fracPart.length + f, fracPart.length)
      | _, _ => none
    else none

/-- Modelled from the JavaScript `Number()` coercion as used on the
`x-slack-request-timestamp` header: surrounding whitespace is trimmed, the
empty (or all-whitespace) string coerces to `0`, and optionally signed
decimal literals coerce to their exact value.  `none` models `NaN`.
Scientific notation, hexadecimal, and `Infinity` forms are outside the
model and map to `none`. -/
def jsNumberOf (s : String) : Option JsNum :=
  let t := jsTrim s
  if t = "" then some { num := 0, exp10 := 0 }
  else
    match t.toList with
    | '-' :: cs =>
      (parseDecimalMagnitude cs).map (fun p => { num := -(p.1 : Int), exp10 := p.2 })
    | '+' :: cs =>
      (parseDecimalMagnitude cs).map (fun p => { num := (p.1 : Int), exp10 := p.2 })
    | cs =>
      (parseDecimalMagnitude cs).map (fun p => { num := (p.1 : Int), exp10 := p.2 })

/-! ## Bytes and hexadecimal -/

/-- UTF-8 encoding of one Unicode code point, as bytes. -/
def utf8EncodeChar (n : Nat) : List Nat :=
  if n < 128 then [n]
  else if n < 2048 then [192 + n / 64, 128 + n % 64]
  else if n < 65536 then [224 + n / 4096, 128 + n / 64 % 64, 128 + n % 64]
  else [240 + n / 262144, 128 + n / 4096 % 64, 128 + n / 64 % 64, 128 + n % 64]

/-- Modelled from `Buffer.from(string)`: the UTF-8 bytes of a string, as
natural numbers below 256. -/
def strBytes (s : String) : List Nat :=
  (s.toList.map (fun c => utf8EncodeChar c.toNat)).flatten

/-- Lowercase hexadecimal digit for a value below 16. -/
def hexDigit (n : Nat) : Char :=
  if n < 10 then Char.ofNat (48 + n) else Char.ofNat (87 + n)

/-- Modelled from Node's `digest('hex')`: lowercase hexadecimal rendering of
a byte list. -/
def hexOfBytes (bs : List Nat) : String :=
  String.mk ((bs.map (fun b => [hexDigit (b / 16), hexDigit (b % 16)])).flatten)

/-! ## SHA-256 and HMAC (model of Node `crypto.createHmac('sha256', _)`)

Machine words are naturals reduced modulo `2 ^ 32`. -/

/-- Reduce modulo `2 ^ 32`. -/
def w32 (n : Nat) : Nat := n % 4294967296

/-- Right rotation of a 32-bit word by `n` places. -/
def rotr32 (n x : Nat) : Nat :=
  w32 (x / 2 ^ n + x % 2 ^ n * 2 ^ (32 - n))

/-- Logical right shift of a 32-bit word. -/
def shr32 (n x : Nat) : Nat := x / 2 ^ n

/-- Bitwise complement on 32 bits. -/
def not32 (x : Nat) : Nat := Nat.xor x 4294967295

/-- SHA-256 Ch function. -/
def shaCh (x y z : Nat) : Nat :=
  Nat.xor (Nat.land x y) (Nat.land (not32 x) z)

/-- SHA-256 Maj function. -/
def shaMaj (x y z : Nat) : Nat :=
  Nat.xor (Nat.land x y) (Nat.xor (Nat.land x z) (Nat.land y z))

/-- SHA-256 big sigma 0. -/
def bigSigma0 (x : Nat) : Nat :=
  Nat.xor (rotr32 2 x) (Nat.xor (rotr32 13 x) (rotr32 22 x))

/-- SHA-256 big sigma 1. -/
def bigSigma1 (x : Nat) : Nat :=
  Nat.xor (rotr32 6 x) (Nat.xor (rotr32 11 x) (rotr32 25 x))

/-- SHA-256 small sigma 0. -/
def smallSigma0 (x : Nat) : Nat :=
  Nat.xor (rotr32 7 x) (Nat.xor (rotr32 18 x) (shr32 3 x))

/-- SHA-256 small sigma 1. -/
def smallSigma1 (x : Nat) : Nat :=
  Nat.xor (rotr32 17 x) (Nat.xor (rotr32 19 x) (shr32 10 x))

/-- SHA-256 round constants (FIPS 180-4, written in decimal). -/
def sha256K : List Nat :=
  [1116352408, 1899447441, 3049323471, 3921009573, 961987163,
   1508970993, 2453635748, 2870763221, 3624381080, 310598401,
   607225278, 1426881987, 1925078388, 2162078206, 2614888103,
   3248222580, 3835390401, 4022224774, 264347078, 604807628,
   770255983, 1249150122, 1555081692, 1996064986, 2554220882,
   2821834349, 2952996808, 3210313671, 3336571891, 3584528711,
   113926993, 338241895, 666307205, 773529912, 1294757372,
   1396182291, 1695183700, 1986661051, 2177026350, 2456956037,
   2730485921, 2820302411, 3259730800, 3345764771, 3516065817,
   3600352804, 4094571909, 275423344, 430227734, 506948616,
   659060556, 883997877, 958139571, 1322822218, 1537002063,
   1747873779, 1955562222, 2024104815, 2227730452, 2361852424,
   2428436474, 2756734187, 3204031479, 3329325298]

/-- SHA-256 initial hash state (FIPS 180-4, written in decimal). -/
def sha256H0 : List Nat :=
  [1779033703, 3144134277, 1013904242, 2773480762,
   1359893119, 2600822924, 528734635, 1541459225]

/-- Big-endian byte rendering of `n` on `k` bytes. -/
def bigEndianBytes (k : Nat) (n : Nat) : List Nat :=
  (List.range k).map (fun i => n / 2 ^ (8 * (k - 1 - i)) % 256)

/-- SHA-256 message padding: append `0x80`, zeros, and the 64-bit big-endian
bit length, up to a multiple of 64 bytes. -/
def sha256Pad (msg : List Nat) : List Nat :=
  let len := msg.length
  let padZeros := (64 - (len + 9) % 64) % 64
  msg ++ [128] ++ List.replicate padZeros 0 ++ bigEndianBytes 8 (8 * len)

/-- Group bytes four at a time into big-endian 32-bit words. -/
def bytesToWords : List Nat → List Nat
  | b0 :: b1 :: b2 :: b3 :: rest =>
    (((b0 * 256 + b1) * 256 + b2) * 256 + b3) :: bytesToWords rest
  | _ => []

/-- Split a byte list into 64-byte chunks. -/
def chunks64 (l : List Nat) : List (List Nat) :=
  if h : l.isEmpty then []
  else l.take 64 :: chunks64 (l.drop 64)
termination_by l.length
decreasing_by
  simp only [List.length_drop]
  exact Nat.sub_lt (by simpa [List.isEmpty_iff_length_eq_zero, Nat.pos_iff_ne_zero] using h)
    (by decide)

/-- Next word of the SHA-256 message schedule, taken from the reversed
schedule built so far (head is the most recent word). -/
def scheduleStep (revWs : List Nat) : Nat :=
  w32 (smallSigma1 (revWs.getD 1 0) + revWs.getD 6 0 +
    smallSigma0 (revWs.getD 14 0) + revWs.getD 15 0)

/-- Extend the reversed message schedule by `k` words. -/
def scheduleRev : Nat → List Nat → List Nat
  | 0, r => r
  | k + 1, r => scheduleRev k (scheduleStep r :: r)

/-- One SHA-256 compression round on the 8-word working state. -/
def compressStep (st : List Nat) (kw : Nat × Nat) : List Nat :=
  match st with
  | [a, b, c, d, e, f, g, h] =>
    let t1 := w32 (h + bigSigma1 e + shaCh e f g + kw.1 + kw.2)
    let t2 := w32 (bigSigma0 a + shaMaj a b c)
    [w32 (t1 + t2), a, b, c, w32 (d + t1), e, f, g]
  | other => other

/-- Process one 16-word block against the running hash state. -/
def sha256Compress (hs : List Nat) (block : List Nat) : List Nat :=
  let ws := (scheduleRev 48 block.reverse).reverse
  let st := (sha256K.zip ws).foldl compressStep hs
  (hs.zip st).map (fun p => w32 (p.1 + p.2))

/-- SHA-256 of a byte list, as 32 bytes. -/
def sha256 (msg : List Nat) : List Nat :=
  let hs := (chunks64 (sha256Pad msg)).foldl
    (fun h b => sha256Compress h (bytesToWords b)) sha256H0
  (hs.map (fun w => bigEndianBytes 4 w)).flatten

/-- HMAC-SHA256 with byte-list key and message, as 32 bytes. -/
def hmacSha256 (key msg : List Nat) : List Nat :=
  let k1 := if 64 < key.length then sha256 key else key
  let k2 := k1 ++ List.replicate (64 - k1.length) 0
  let ipadded := k2.map (fun b => Nat.xor b 54)
  let opadded := k2.map (fun b => Nat.xor b 92)
  sha256 (opadded ++ sha256 (ipadded ++ msg))

/-! ## Signature Verifier (src/app/api/slack/utils.ts, verifySlackSignature;
the same function is inlined verbatim in the two standalone routes) -/

/-- Modelled from `crypto.timingSafeEqual(Buffer.from(a), Buffer.from(b))`:
throws (here `Except.error ()`) when the byte lengths differ, otherwise
returns byte equality. -/
def timingSafeEqual (a b : List Nat) : Except Unit Bool :=
  if a.length = b.length then Except.ok (decide (a = b)) else Except.error ()

/-- Expected Slack signature token: `"v0=" ++ hex (HMAC-SHA256 (secret,
"v0:" ++ timestamp ++ ":" ++ rawBody))`, from utils.ts lines 20-25. -/
def expectedToken (signingSecret ts rawBody : String) : String :=
  "v0=" ++ hexOfBytes
    (hmacSha256 (strBytes signingSecret) (strBytes ("v0:" ++ ts ++ ":" ++ rawBody)))

/-- Replay-window test `Math.abs(now - Number(timestamp)) > 300` from
utils.ts line 18, in exact integer arithmetic: for a parsed value
`num / 10 ^ exp10` the test `|now - num / 10 ^ exp10| > 300` is the
cross-multiplied `|now * 10 ^ exp10 - num| > 300 * 10 ^ exp10`.  When
`Number(timestamp)` is `NaN` every comparison with `NaN` is false in
JavaScript, so the test does not fire. -/
def replayCheckFails (nowSec : Int) (ts : String) : Bool :=
  match jsNumberOf ts with
  | some v =>
    decide (300 * 10 ^ v.exp10 < (nowSec * (10 : Int) ^ v.exp10 - v.num).natAbs)
  | none => false

/-- Shallow embedding of `verifySlackSignature` (utils.ts lines 4-34).  The
implicit clock read `Math.floor(Date.now() / 1000)` is the explicit argument
`nowSec`. -/
def verifySlackSignature (signingSecret : String) (timestamp signature : Option String)
    (rawBody : String) (nowSec : Int) : Bool :=
  if !jsStrTruthy timestamp || !jsStrTruthy signature then false
  else
    let ts := timestamp.getD ""
    let sig := signature.getD ""
    if replayCheckFails nowSec ts then false
    else
      match timingSafeEqual (strBytes (expectedToken signingSecret ts rawBody))
          (strBytes sig) with
      | Except.ok b => b
      | Except.error _ => false

/-! ## URLSearchParams model -/

/-- Hexadecimal digit value of a character, upper or lower case. -/
def hexVal (c : Char) : Option Nat :=
  if c.isDigit then some (c.toNat - 48)
  else if 97 ≤ c.toNat ∧ c.toNat ≤ 102 then some (c.toNat - 87)
  else if 65 ≤ c.toNat ∧ c.toNat ≤ 70 then some (c.toNat - 55)
  else none

/-- Modelled from `application/x-www-form-urlencoded` component decoding as
performed by `URLSearchParams`: `+` becomes a space and `%XX` escapes are
decoded bytewise.  Decoded bytes are read as one character per byte, which
is faithful for ASCII payloads; multi-byte UTF-8 escape sequences are outside
the model. -/
def percentDecodeAux : Nat → List Char → List Char
  | _, [] => []
  | 0, cs => cs
  | fuel + 1, c :: rest =>
    if c = '%' then
      match rest with
      | a :: b :: rest2 =>
        match hexVal a, hexVal b with
        | some ha, some hb => Char.ofNat (16 * ha + hb) :: percentDecodeAux fuel rest2
        | _, _ => c :: percentDecodeAux fuel rest
      | _ => c :: percentDecodeAux fuel rest
    else if c = '+' then Char.ofNat 32 :: percentDecodeAux fuel rest
    else c :: percentDecodeAux fuel rest

/-- Run the decoding engine with enough fuel to consume the whole list
(every step consumes at least one character). -/
def percentDecodeChars (cs : List Char) : List Char :=
  percentDecodeAux cs.length cs

/-- Decode one form-encoded component. -/
def formDecode (cs : List Char) : String :=
  String.mk (percentDecodeChars cs)

/-- Split a character list at every occurrence of the separator. -/
def splitOnChar (sep : Char) : List Char → List (List Char)
  | [] => [[]]
  | c :: rest =>
    if c = sep then [] :: splitOnChar sep rest
    else
      match splitOnChar sep rest with
      | [] => [[c]]
      | seg :: segs => (c :: seg) :: segs

/-- Join character-list segments with a separator. -/
def joinWithChar (sep : Char) : List (List Char) → List Char
  | [] => []
  | [seg] => seg
  | seg :: segs => seg ++ sep :: joinWithChar sep segs

/-- Modelled from `new URLSearchParams(string)`: strip a leading `?`, split
on `&` skipping empty segments, split each segment at its first `=` (a
segment without `=` is a key with empty value), and decode each side. -/
def parseForm (s : String) : List (String × String) :=
  let cs :=
    match s.toList with
    | '?' :: rest => rest
    | other => other
  ((splitOnChar '&' cs).filter (fun seg => ¬ seg.isEmpty)).map
    (fun seg =>
      match splitOnChar '=' seg with
      | [] => ("", "")
      | k :: vs => (formDecode k, formDecode (joinWithChar '=' vs)))

/-- Modelled from `URLSearchParams.get`: first value bound to the key, or
`null`. -/
def formGet (ps : List (String × String)) (k : String) : Option String :=
  match ps.find? (fun p => decide (p.1 = k)) with
  | some p => some p.2
  | none => none

/-! ## HTTP responses and JSON -/

/-- Shallow model of a `Response` value: status, body text, and the
`content-type` header when one is set. -/
structure HttpResponse where
  status : Nat
  body : String
  contentType : Option String
deriving DecidableEq, Repr

/-- JSON primitive values appearing in this codebase. -/
inductive JsonValue
  | str (s : String)
  | bool (b : Bool)
deriving DecidableEq, Repr

/-- JSON escaping of one character, as performed by `JSON.stringify`:
quote, backslash and control characters are escaped, everything else is
copied. -/
def jsonEscapeChar (c : Char) : String :=
  if c = Char.ofNat 34 then "\\\""
  else if c = Char.ofNat 92 then "\\\\"
  else if c = Char.ofNat 8 then "\\b"
  else if c = Char.ofNat 12 then "\\f"
  else if c = Char.ofNat 10 then "\\n"
  else if c = Char.ofNat 13 then "\\r"
  else if c = Char.ofNat 9 then "\\t"
  else if c.toNat < 32 then
    "\\u00" ++ String.singleton (hexDigit (c.toNat / 16)) ++
      String.singleton (hexDigit (c.toNat % 16))
  else String.singleton c

/-- JSON escaping of a string (body of a JSON string literal). -/
def jsonEscape (s : String) : String :=
  String.join (s.toList.map jsonEscapeChar)

/-- Rendering of a JSON primitive. -/
def jsonPrim : JsonValue → String
  | JsonValue.str s => "\"" ++ jsonEscape s ++ "\""
  | JsonValue.bool b => if b then "true" else "false"

/-- Modelled from `JSON.stringify` on an object literal with primitive
fields, in insertion order. -/
def jsonStringifyObj (fields : List (String × JsonValue)) : String :=
  "\x7b" ++
    String.intercalate ","
      (fields.map (fun f => "\"" ++ jsonEscape f.1 ++ "\":" ++ jsonPrim f.2)) ++
  "\x7d"

/-- Slack message visibility, the TypeScript union
`'ephemeral' | 'in_channel'`. -/
inductive ResponseType
  | ephemeral
  | in_channel
deriving DecidableEq, Repr

/-- String carried by a `ResponseType` value. -/
def ResponseType.str : ResponseType → String
  | ResponseType.ephemeral => "ephemeral"
  | ResponseType.in_channel => "in_channel"

/-- Shallow embedding of `createAckResponse` (utils.ts lines 100-111): a
200 response whose body is `JSON.stringify` of the two-field object and
whose content type is `application/json; charset=utf-8`.  The standalone
routes build the identical response inline. -/
def createAckResponse (text : String) (responseType : ResponseType) : HttpResponse :=
  { status := 200
    body := jsonStringifyObj
      [("response_type", JsonValue.str responseType.str), ("text", JsonValue.str text)]
    contentType := some "application/json; charset=utf-8" }

/-! ## Request Admission Pipeline (utils.ts validateSlackRequest; the same
logic is inlined in the two standalone routes) -/

/-- Process environment slice read by the pipeline, plus the clock read used
by the verifier. -/
structure Env where
  slackSigningSecret : Option String
  claudeApiKey : Option String
  nodeEnv : Option String
  nowSec : Int

/-- Inbound request slice consumed by the pipeline: raw body text and the
two Slack headers. -/
structure SlackRequest where
  rawBody : String
  signature : Option String
  timestamp : Option String

/-- Result of `validateSlackRequest`: an early `Response` (error or
handshake echo), or the validated raw body and generation-API credential. -/
inductive ValidationResult
  | reject (resp : HttpResponse)
  | accept (rawBody : String) (claudeKey : String)
deriving DecidableEq, Repr

/-- Observable admission effects: reading the request body, and scheduling
the deferred background task. -/
inductive AdmissionEvent
  | readBody
  | scheduleDeferred
deriving DecidableEq, Repr

/-- Shallow embedding of `validateSlackRequest` (utils.ts lines 37-72),
also covering the identical inline admission prologue of the standalone
routes.  The returned event list records body reads, in order. -/
def validateSlackRequest (env : Env) (req : SlackRequest) : ValidationResult × List AdmissionEvent :=
  if !jsStrTruthy env.slackSigningSecret || !jsStrTruthy env.claudeApiKey then
    (ValidationResult.reject { status := 500, body := "Missing env vars", contentType := none }, [])
  else
    let signingSecret := env.slackSigningSecret.getD ""
    let claudeKey := env.claudeApiKey.getD ""
    let rawBody := req.rawBody
    let maybeParams := parseForm rawBody
    if formGet maybeParams "type" = some "url_verification" then
      (ValidationResult.reject
        { status := 200, body := (formGet maybeParams "challenge").getD "", contentType := none },
       [AdmissionEvent.readBody])
    else if env.nodeEnv = some "production" then
      if verifySlackSignature signingSecret req.timestamp req.signature rawBody env.nowSec then
        (ValidationResult.accept rawBody claudeKey, [AdmissionEvent.readBody])
      else
        (ValidationResult.reject { status := 401, body := "Bad signature", contentType := none },
         [AdmissionEvent.readBody])
    else (ValidationResult.accept rawBody claudeKey, [AdmissionEvent.readBody])

/-- Shallow embedding of the synchronous phase of each route's `POST`
handler, parameterized by the route's acknowledgment text and response type:
validate, extract `response_url`, build the immediate acknowledgment, and
schedule the deferred task exactly when `response_url` is truthy.  The event
list extends the admission events with `scheduleDeferred` when the
background task is registered. -/
def routePOST (ackText : String) (ackType : ResponseType) (env : Env) (req : SlackRequest) :
    HttpResponse × List AdmissionEvent :=
  match validateSlackRequest env req with
  | (ValidationResult.reject resp, evs) => (resp, evs)
  | (ValidationResult.accept rawBody _claudeKey, evs) =>
    let params := parseForm rawBody
    let responseUrl := formGet params "response_url"
    let ack := createAckResponse ackText ackType
    if jsStrTruthy responseUrl then (ack, evs ++ [AdmissionEvent.scheduleDeferred])
    else (ack, evs)

/-! ## Deferred Delivery Task

Each route registers a background continuation (with `after()` or an
immediately-invoked async function).  The continuation is embedded in a
small exception monad that records the trace of outbound callback POSTs;
its external collaborators (the generation API and the callback endpoint)
are an explicit oracle. -/

/-- One content block of a generation-API response; the code keeps `c.text`
when `'text' in c` and the empty string otherwise. -/
inductive ContentBlock
  | text (s : String)
  | nonText
deriving DecidableEq, Repr

/-- Payload kind of an outbound callback POST: the formatted generation
result, or the route's preset fallback message. -/
inductive PostPayload
  | success (text : String)
  | fallback (text : String)
deriving DecidableEq, Repr

/-- One outbound POST attempt to the callback URL.  `delivered` is false
when the `fetch` call itself rejects. -/
structure PostEvent where
  payload : PostPayload
  delivered : Bool
deriving DecidableEq, Repr

/-- Exception monad with a POST trace: a computation maps the trace so far
to a result (`Except.error` models a thrown JavaScript exception) and the
extended trace. -/
def TaskM (α : Type) : Type :=
  List PostEvent → Except String α × List PostEvent

/-- Monadic return. -/
def TaskM.pure (a : α) : TaskM α := fun tr => (Except.ok a, tr)

/-- Monadic sequencing: an exception short-circuits. -/
def TaskM.bind (x : TaskM α) (f : α → TaskM β) : TaskM β := fun tr =>
  match x tr with
  | (Except.ok a, tr2) => f a tr2
  | (Except.error e, tr2) => (Except.error e, tr2)

/-- Throw a JavaScript exception. -/
def TaskM.throw (e : String) : TaskM α := fun tr => (Except.error e, tr)

/-- A `try / catch` block. -/
def TaskM.tryCatch (x : TaskM α) (handler : String → TaskM α) : TaskM α := fun tr =>
  match x tr with
  | (Except.ok a, tr2) => (Except.ok a, tr2)
  | (Except.error e, tr2) => handler e tr2

/-- Record one outbound POST attempt. -/
def TaskM.emit (ev : PostEvent) : TaskM Unit := fun tr => (Except.ok (), tr ++ [ev])

/-- Run a task on the empty trace. -/
def TaskM.run (x : TaskM α) : Except String α × List PostEvent := x []

/-- External behavior visible to one run of a deferred task: how the
generation call would settle and how long it would take (milliseconds), and
how each of the at most two callback POST attempts would behave. -/
structure Oracle where
  genResult : Except String (List ContentBlock)
  genMs : Nat
  post1Delivered : Bool
  post1AckReadable : Bool
  post2Delivered : Bool
  post2AckReadable : Bool

/-- The generation call raced against the fixed 45-second timer
(`Promise.race([apiPromise, timeoutPromise])`, emojify route lines 59-73 and
the corresponding lines of the after-based sickbot and farming routes): the
timer rejection wins whenever the call takes longer than 45000 ms. -/
def racedGeneration (o : Oracle) : TaskM (List ContentBlock) :=
  if 45000 < o.genMs then TaskM.throw "Claude API timeout after 45s"
  else
    match o.genResult with
    | Except.ok blocks => TaskM.pure blocks
    | Except.error e => TaskM.throw e

/-- The generation call of the plain sickbot route (src/unnamed/part_000
lines 106-111): a direct `await` with no timer, so the duration is
irrelevant. -/
def plainGeneration (o : Oracle) : TaskM (List ContentBlock) :=
  match o.genResult with
  | Except.ok blocks => TaskM.pure blocks
  | Except.error e => TaskM.throw e

/-- One `fetch(responseUrl, { method: POST, ... })` attempt: the attempt is
recorded on the trace, and a rejected fetch throws. -/
def fetchPost (payload : PostPayload) (delivered : Bool) : TaskM Unit :=
  TaskM.bind (TaskM.emit { payload := payload, delivered := delivered })
    (fun _ => if delivered then TaskM.pure () else TaskM.throw "fetch failed")

/-- Reading the acknowledgment body (`await slackResponse.text()`): throws
when the body stream fails. -/
def readAckBody (ackReadable : Bool) : TaskM Unit :=
  if ackReadable then TaskM.pure () else TaskM.throw "ack body read failed"

/-- Shallow embedding of `sendSlackMessage` (utils.ts lines 75-97): fetch
then read the acknowledgment body inside a `try` whose `catch` logs and
rethrows. -/
def sendSlackMessage (payload : PostPayload) (delivered ackReadable : Bool) : TaskM Unit :=
  TaskM.tryCatch
    (TaskM.bind (fetchPost payload delivered) (fun _ => readAckBody ackReadable))
    (fun e => TaskM.throw e)

/-- Concatenation of the textual content blocks followed by `trim`, from
`response.content.map(c => 'text' in c ? c.text : '').join('').trim()`. -/
def extractText (blocks : List ContentBlock) : String :=
  jsTrim (String.join (blocks.map
    (fun b => match b with
      | ContentBlock.text s => s
      | ContentBlock.nonText => "")))

/-- Fallback message of the emojify route. -/
def emojifyFallbackText : String := "❌🤷‍♂️ (Translation failed)"

/-- Success formatting of the emojify route (lines 85-87): prefix the
original user text when it is nonempty. -/
def emojifyFormat (userInput emojis : String) : String :=
  if userInput ≠ "" then "💬 _\"" ++ userInput ++ "\"_\n\n" ++ emojis else emojis

/-- Deferred task of the emojify route
(src/app/api/slack/emojify/route.ts lines 30-103): raced generation, then
`sendSlackMessage` with the formatted result; on any failure one fallback
`sendSlackMessage` whose own failure is swallowed. -/
def emojifyDeferredTask (userInput : String) (o : Oracle) : TaskM Unit :=
  TaskM.tryCatch
    (TaskM.bind (racedGeneration o)
      (fun blocks =>
        sendSlackMessage
          (PostPayload.success (emojifyFormat userInput (extractText blocks)))
          o.post1Delivered o.post1AckReadable))
    (fun _ =>
      TaskM.tryCatch
        (sendSlackMessage (PostPayload.fallback emojifyFallbackText)
          o.post2Delivered o.post2AckReadable)
        (fun _ => TaskM.pure ()))

/-- Fallback message shared by the two sickbot routes. -/
def sickbotFallbackText : String :=
  "Feeling under the weather but continuing to synergize strategically pending AI recovery."

/-- Deferred task of the after-based sickbot route (second document of
src/app/api/slack/emojify/route.ts, lines 197-286): raced generation, then
an inline success `fetch` (with `replace_original: true`) whose failure is
swallowed by an inner `catch`; a generation failure triggers one inline
fallback `fetch` whose failure is also swallowed. -/
def sickbotAfterDeferredTask (o : Oracle) : TaskM Unit :=
  TaskM.tryCatch
    (TaskM.bind (racedGeneration o)
      (fun blocks =>
        TaskM.tryCatch
          (TaskM.bind (fetchPost (PostPayload.success (extractText blocks)) o.post1Delivered)
            (fun _ => readAckBody o.post1AckReadable))
          (fun _ => TaskM.pure ())))
    (fun _ =>
      TaskM.tryCatch
        (fetchPost (PostPayload.fallback sickbotFallbackText) o.post2Delivered)
        (fun _ => TaskM.pure ()))

/-- Deferred task of the plain sickbot route (src/unnamed/part_000 lines
85-150): identical to the after-based sickbot task except that the
generation call is a direct `await` with no 45-second race. -/
def sickbotPlainDeferredTask (o : Oracle) : TaskM Unit :=
  TaskM.tryCatch
    (TaskM.bind (plainGeneration o)
      (fun blocks =>
        TaskM.tryCatch
          (TaskM.bind (fetchPost (PostPayload.success (extractText blocks)) o.post1Delivered)
            (fun _ => readAckBody o.post1AckReadable))
          (fun _ => TaskM.pure ())))
    (fun _ =>
      TaskM.tryCatch
        (fetchPost (PostPayload.fallback sickbotFallbackText) o.post2Delivered)
        (fun _ => TaskM.pure ()))

/-- Fallback message of the farming-advice route. -/
def farmingFallbackText : String :=
  "🚜 The crops have failed. Try rotating your keyboard 90 degrees and planting again."

/-- Success formatting of the farming-advice route (second document of
src/unnamed/part_000, lines 237-239). -/
def farmingFormat (userInput text : String) : String :=
  if userInput ≠ "" then "🚜 *Farming Advice: " ++ userInput ++ "*\n\n" ++ text
  else "🚜 " ++ text

/-- Deferred task of the farming-advice route (second document of
src/unnamed/part_000, lines 183-255): same shape as the emojify task with
its own formatting and fallback message. -/
def farmingDeferredTask (userInput : String) (o : Oracle) : TaskM Unit :=
  TaskM.tryCatch
    (TaskM.bind (racedGeneration o)
      (fun blocks =>
        sendSlackMessage
          (PostPayload.success (farmingFormat userInput (extractText blocks)))
          o.post1Delivered o.post1AckReadable))
    (fun _ =>
      TaskM.tryCatch
        (sendSlackMessage (PostPayload.fallback farmingFallbackText)
          o.post2Delivered o.post2AckReadable)
        (fun _ => TaskM.pure ()))

/-- Number of success-payload POST attempts on a trace. -/
def countSuccess (tr : List PostEvent) : Nat :=
  (tr.filter (fun e => match e.payload with
    | PostPayload.success _ => true
    | PostPayload.fallback _ => false)).length

/-- Number of fallback-payload POST attempts on a trace. -/
def countFallback (tr : List PostEvent) : Nat :=
  (tr.filter (fun e => match e.payload with
    | PostPayload.success _ => false
    | PostPayload.fallback _ => true)).length

/-- Fallback POST attempt of the emojify route. -/
def emojifyFallbackEvent (o : Oracle) : PostEvent :=
  { payload := PostPayload.fallback emojifyFallbackText, delivered := o.post2Delivered }

/-- POST trace of one emojify deferred-task run, by cases on the oracle. -/
def emojifyTrace (u : String) (o : Oracle) : List PostEvent :=
  if 45000 < o.genMs then [emojifyFallbackEvent o]
  else
    match o.genResult with
    | Except.error _ => [emojifyFallbackEvent o]
    | Except.ok blocks =>
      let ev : PostEvent :=
        { payload := PostPayload.success (emojifyFormat u (extractText blocks))
          delivered := o.post1Delivered }
      if o.post1Delivered && o.post1AckReadable then [ev] else [ev, emojifyFallbackEvent o]

/-- The emojify deferred task never throws and produces exactly the trace
`emojifyTrace`. -/
theorem emojifyDeferredTask_run (u : String) (o : Oracle) :
    (emojifyDeferredTask u o).run = (Except.ok (), emojifyTrace u o) := by
  rcases o with ⟨gr, gms, p1d, p1a, p2d, p2a⟩
  by_cases h45 : 45000 < gms <;>
    cases gr <;> cases p1d <;> cases p1a <;> cases p2d <;> cases p2a <;>
      simp [emojifyDeferredTask, emojifyTrace, emojifyFallbackEvent, TaskM.run,
        TaskM.tryCatch, TaskM.bind, TaskM.pure, TaskM.throw, TaskM.emit,
        racedGeneration, sendSlackMessage, fetchPost, readAckBody, h45]

/-- Fallback POST attempt of either sickbot route. -/
def sickbotFallbackEvent (o : Oracle) : PostEvent :=
  { payload := PostPayload.fallback sickbotFallbackText, delivered := o.post2Delivered }

/-- POST trace of one after-based sickbot deferred-task run. -/
def sickbotAfterTrace (o : Oracle) : List PostEvent :=
  if 45000 < o.genMs then [sickbotFallbackEvent o]
  else
    match o.genResult with
    | Except.error _ => [sickbotFallbackEvent o]
    | Except.ok blocks =>
      [{ payload := PostPayload.success (extractText blocks), delivered := o.post1Delivered }]

/-- The after-based sickbot deferred task never throws and produces exactly
the trace `sickbotAfterTrace`. -/
theorem sickbotAfterDeferredTask_run (o : Oracle) :
    (sickbotAfterDeferredTask o).run = (Except.ok (), sickbotAfterTrace o) := by
  rcases o with ⟨gr, gms, p1d, p1a, p2d, p2a⟩
  by_cases h45 : 45000 < gms <;>
    cases gr <;> cases p1d <;> cases p1a <;> cases p2d <;>
      simp [sickbotAfterDeferredTask, sickbotAfterTrace, sickbotFallbackEvent, TaskM.run,
        TaskM.tryCatch, TaskM.bind, TaskM.pure, TaskM.throw, TaskM.emit,
        racedGeneration, fetchPost, readAckBody, h45]

/-- POST trace of one plain sickbot deferred-task run; the generation
duration plays no role. -/
def sickbotPlainTrace (o : Oracle) : List PostEvent :=
  match o.genResult with
  | Except.error _ => [sickbotFallbackEvent o]
  | Except.ok blocks =>
    [{ payload := PostPayload.success (extractText blocks), delivered := o.post1Delivered }]

/-- The plain sickbot deferred task never throws and produces exactly the
trace `sickbotPlainTrace`. -/
theorem sickbotPlainDeferredTask_run (o : Oracle) :
    (sickbotPlainDeferredTask o).run = (Except.ok (), sickbotPlainTrace o) := by
  rcases o with ⟨gr, gms, p1d, p1a, p2d, p2a⟩
  cases gr <;> cases p1d <;> cases p1a <;> cases p2d <;>
    simp [sickbotPlainDeferredTask, sickbotPlainTrace, sickbotFallbackEvent, TaskM.run,
      TaskM.tryCatch, TaskM.bind, TaskM.pure, TaskM.throw, TaskM.emit,
      plainGeneration, fetchPost, readAckBody]

/-- Fallback POST attempt of the farming-advice route. -/
def farmingFallbackEvent (o : Oracle) : PostEvent :=
  { payload := PostPayload.fallback farmingFallbackText, delivered := o.post2Delivered }

/-- POST trace of one farming-advice deferred-task run. -/
def farmingTrace (u : String) (o : Oracle) : List PostEvent :=
  if 45000 < o.genMs then [farmingFallbackEvent o]
  else
    match o.genResult with
    | Except.error _ => [farmingFallbackEvent o]
    | Except.ok blocks =>
      let ev : PostEvent :=
        { payload := PostPayload.success (farmingFormat u (extractText blocks))
          delivered := o.post1Delivered }
      if o.post1Delivered && o.post1AckReadable then [ev] else [ev, farmingFallbackEvent o]

/-- The farming-advice deferred task never throws and produces exactly the
trace `farmingTrace`. -/
theorem farmingDeferredTask_run (u : String) (o : Oracle) :
    (farmingDeferredTask u o).run = (Except.ok (), farmingTrace u o) := by
  rcases o with ⟨gr, gms, p1d, p1a, p2d, p2a⟩
  by_cases h45 : 45000 < gms <;>
    cases gr <;> cases p1d <;> cases p1a <;> cases p2d <;> cases p2a <;>
      simp [farmingDeferredTask, farmingTrace, farmingFallbackEvent, TaskM.run,
        TaskM.tryCatch, TaskM.bind, TaskM.pure, TaskM.throw, TaskM.emit,
        racedGeneration, sendSlackMessage, fetchPost, readAckBody, h45]

/-- A completed deferred-task run that terminated normally with at least one
and at most two POST attempts, at most one per branch. -/
def goodRun (r : Except String Unit × List PostEvent) : Prop :=
  r.1 = Except.ok () ∧ 1 ≤ r.2.length ∧ r.2.length ≤ 2 ∧
    countSuccess r.2 ≤ 1 ∧ countFallback r.2 ≤ 1

/-! ## Claims -/

/-- C1: For every started Deferred Delivery Task (all four routes, any
behavior of the generation call and of the callback endpoint), the task
terminates normally — it never propagates an exception to its caller
context — having issued at least one POST to the callback URL and at most
one POST per branch: at most one success-payload POST (try branch) and at
most one fallback-payload POST (catch branch). -/
theorem deferred_delivery_exactly_one_post (u : String) (o : Oracle) :
    goodRun ((emojifyDeferredTask u o).run) ∧
    goodRun ((sickbotAfterDeferredTask o).run) ∧
    goodRun ((sickbotPlainDeferredTask o).run) ∧
    goodRun ((farmingDeferredTask u o).run) := by
  rw [emojifyDeferredTask_run, sickbotAfterDeferredTask_run,
    sickbotPlainDeferredTask_run, farmingDeferredTask_run]
  rcases o with ⟨gr, gms, p1d, p1a, p2d, p2a⟩
  by_cases h45 : 45000 < gms <;> cases gr <;> cases p1d <;> cases p1a <;>
    simp [goodRun, emojifyTrace, sickbotAfterTrace, sickbotPlainTrace, farmingTrace,
      emojifyFallbackEvent, sickbotFallbackEvent, farmingFallbackEvent,
      countSuccess, countFallback, h45]

/-- Oracle of a generation call that resolves with text but only after 46
seconds, against a callback endpoint that accepts everything. -/
def slowGenOracle : Oracle :=
  { genResult := Except.ok [ContentBlock.text "🤧 synergy"]
    genMs := 46000
    post1Delivered := true
    post1AckReadable := true
    post2Delivered := true
    post2AckReadable := true }

/-- C2 counterexample: in the plain sickbot route the generation call is
not raced against any timer — with a generation call that takes 46 seconds
the deferred task still delivers exactly one POST containing the generation
text, and no fallback POST, contradicting the claim that every endpoint's
deferred task treats a generation call exceeding 45 seconds as a timeout
failure delivered as fallback text. -/
theorem plain_sickbot_has_no_timeout_race :
    45000 < slowGenOracle.genMs ∧
    (sickbotPlainDeferredTask slowGenOracle).run =
      (Except.ok (),
        [{ payload := PostPayload.success "🤧 synergy", delivered := true }]) ∧
    countFallback
      [{ payload := PostPayload.success "🤧 synergy", delivered := true }] = 0 := by
  refine ⟨by decide, ?_, by decide⟩
  rw [sickbotPlainDeferredTask_run]
  have h : extractText [ContentBlock.text "🤧 synergy"] = "🤧 synergy" := by decide
  simp [sickbotPlainTrace, slowGenOracle, h]

/-- C2 (amended): in the emojify, after-based sickbot and farming routes the
generation call is raced against a fixed 45-second timer, and a generation
call exceeding 45 seconds yields exactly one callback POST, carrying the
route's fallback text rather than the generation text; the plain sickbot
route awaits the generation call with no timer, so its run does not depend
on the generation duration at all. -/
theorem raced_routes_timeout_yields_single_fallback (u : String) (o : Oracle)
    (h45 : 45000 < o.genMs) :
    (emojifyDeferredTask u o).run = (Except.ok (), [emojifyFallbackEvent o]) ∧
    (sickbotAfterDeferredTask o).run = (Except.ok (), [sickbotFallbackEvent o]) ∧
    (farmingDeferredTask u o).run = (Except.ok (), [farmingFallbackEvent o]) ∧
    (sickbotPlainDeferredTask o).run = (sickbotPlainDeferredTask { o with genMs := 0 }).run := by
  rw [emojifyDeferredTask_run, sickbotAfterDeferredTask_run, farmingDeferredTask_run,
    sickbotPlainDeferredTask_run, sickbotPlainDeferredTask_run]
  refine ⟨?_, ?_, ?_, rfl⟩ <;>
    simp [emojifyTrace, sickbotAfterTrace, farmingTrace, h45]

/-- Witness for the amended C2 theorem at a concrete 46-second generation
call. -/
theorem raced_routes_timeout_yields_single_fallback_witness :
    45000 < slowGenOracle.genMs ∧
    (emojifyDeferredTask "hi" slowGenOracle).run =
      (Except.ok (), [emojifyFallbackEvent slowGenOracle]) := by
  exact ⟨by decide,
    (raced_routes_timeout_yields_single_fallback "hi" slowGenOracle (by decide)).1⟩

/-- Constant-time comparison of a buffer with itself succeeds with `true`. -/
theorem timingSafeEqual_self (a : List Nat) : timingSafeEqual a a = Except.ok true := by
  simp [timingSafeEqual]

/-- The expected signature token is never the empty string (it starts with
`v0=`). -/
theorem expectedToken_ne_empty (s t b : String) : expectedToken s t b ≠ "" := by
  intro h
  have hlen : (expectedToken s t b).length = 0 := by rw [h]; rfl
  have h3 : ("v0=" : String).length = 3 := rfl
  rw [expectedToken, String.length_append, h3] at hlen
  omega

/-- C4: for every secret, signature, and raw body, whenever the timestamp
parses to a number whose absolute distance from the current time exceeds
300 seconds, `verifySlackSignature` returns false — even when the supplied
signature is the correctly computed HMAC token for that timestamp and
body (the signature is universally quantified, so in particular it may be
`expectedToken`). -/
theorem stale_timestamp_rejected (secret sig body ts : String) (now : Int) (v : JsNum)
    (hq : jsNumberOf ts = some v)
    (hfar : 300 * 10 ^ v.exp10 < (now * (10 : Int) ^ v.exp10 - v.num).natAbs) :
    verifySlackSignature secret (some ts) (some sig) body now = false := by
  unfold verifySlackSignature
  by_cases hts : jsStrTruthy (some ts) <;> by_cases hsig : jsStrTruthy (some sig) <;>
    simp [hts, hsig, replayCheckFails, hq, hfar]

/-- Witness for C4: a timestamp 1000 seconds in the past is rejected. -/
theorem stale_timestamp_rejected_witness :
    verifySlackSignature "secret" (some "1000") (some "v0=deadbeef") "text=hi" 2000 = false := by
  exact stale_timestamp_rejected "secret" "v0=deadbeef" "text=hi" "1000" 2000
    { num := 1000, exp10 := 0 } (by decide) (by decide)

/-- C5: for every nonempty timestamp string on which `Number()` yields
`NaN`, the replay-window check does not fire (every comparison with `NaN`
is false), so `verifySlackSignature` returns true whenever the supplied
signature is the correct HMAC token over that non-numeric timestamp and the
body — the 300-second window only constrains numeric timestamps. -/
theorem nan_timestamp_skips_replay_window (secret ts body : String) (now : Int)
    (hts : ts ≠ "") (hnan : jsNumberOf ts = none) :
    verifySlackSignature secret (some ts) (some (expectedToken secret ts body)) body now
      = true := by
  unfold verifySlackSignature
  have h1 : jsStrTruthy (some ts) = true := by simp [jsStrTruthy, hts]
  have h2 : jsStrTruthy (some (expectedToken secret ts body)) = true := by
    simp [jsStrTruthy, expectedToken_ne_empty]
  simp [h1, h2, replayCheckFails, hnan, timingSafeEqual_self]

/-- Witness for C5: a correctly signed request whose timestamp header is the
word `not-a-number` passes verification at an arbitrary clock reading. -/
theorem nan_timestamp_skips_replay_window_witness :
    verifySlackSignature "s" (some "not-a-number")
      (some (expectedToken "s" "not-a-number" "b")) "b" 99999 = true := by
  exact nan_timestamp_skips_replay_window "s" "not-a-number" "b" 99999
    (by decide) (by decide)

/-- C6 counterexample: `verifySlackSignature` is not a function of its four
inputs alone — the same (secret, timestamp, signature, rawBody) quadruple,
with the correctly computed token as signature, verifies at clock reading
1000 and fails at clock reading 2000, because the code reads the ambient
clock for the replay window. -/
theorem verify_not_pure_in_four_inputs :
    verifySlackSignature "s" (some "1000") (some (expectedToken "s" "1000" "b")) "b" 1000
        = true ∧
    verifySlackSignature "s" (some "1000") (some (expectedToken "s" "1000" "b")) "b" 2000
        = false := by
  constructor
  · unfold verifySlackSignature
    have h1 : jsStrTruthy (some "1000") = true := by decide
    have h2 : jsStrTruthy (some (expectedToken "s" "1000" "b")) = true := by
      simp [jsStrTruthy, expectedToken_ne_empty]
    have hr : replayCheckFails 1000 "1000" = false := by decide
    simp [h1, h2, hr, timingSafeEqual_self]
  · unfold verifySlackSignature
    have h1 : jsStrTruthy (some "1000") = true := by decide
    have h2 : jsStrTruthy (some (expectedToken "s" "1000" "b")) = true := by
      simp [jsStrTruthy, expectedToken_ne_empty]
    have hr : replayCheckFails 2000 "1000" = true := by decide
    simp [h1, h2, hr]

/-- C6 (amended): `verifySlackSignature` has no side effects and is a
deterministic function of its four inputs together with the ambient clock
reading; the clock influences the result only through the 300-second
replay-window test, so two calls with identical arguments whose replay-window
verdicts agree return the same boolean. -/
theorem verify_pure_given_clock (secret : String) (ts sig : Option String) (body : String)
    (now now' : Int)
    (h : replayCheckFails now (ts.getD "") = replayCheckFails now' (ts.getD "")) :
    verifySlackSignature secret ts sig body now
      = verifySlackSignature secret ts sig body now' := by
  simp only [verifySlackSignature, h]

/-- Witness for the amended C6 theorem: clock readings 100 and 200 give the
same verdict for a timestamp of 5 seconds. -/
theorem verify_pure_given_clock_witness :
    verifySlackSignature "s" (some "5") (some "v0=ab") "b" 100
      = verifySlackSignature "s" (some "5") (some "v0=ab") "b" 200 := by
  exact verify_pure_given_clock "s" (some "5") (some "v0=ab") "b" 100 200 (by decide)

/-- C9: an exception inside the constant-time comparison (raised exactly
when the two byte buffers differ in length) is caught and turned into a
`false` verdict rather than propagated: `verifySlackSignature` is a total
boolean function. -/
theorem comparison_exception_yields_false (secret ts sig body : String) (now : Int)
    (hlen : (strBytes (expectedToken secret ts body)).length ≠ (strBytes sig).length) :
    timingSafeEqual (strBytes (expectedToken secret ts body)) (strBytes sig)
        = Except.error () ∧
    verifySlackSignature secret (some ts) (some sig) body now = false := by
  have he : timingSafeEqual (strBytes (expectedToken secret ts body)) (strBytes sig)
      = Except.error () := by
    simp [timingSafeEqual, hlen]
  refine ⟨he, ?_⟩
  unfold verifySlackSignature
  by_cases h1 : jsStrTruthy (some ts) <;> by_cases h2 : jsStrTruthy (some sig) <;>
    by_cases h3 : replayCheckFails now ts <;> simp [h1, h2, h3, he]

/-- Witness for C9: a two-byte signature buffer can never match the
67-byte expected token buffer, and verification returns false. -/
theorem comparison_exception_yields_false_witness :
    verifySlackSignature "k" (some "7") (some "v0") "b" 7 = false := by
  exact (comparison_exception_yields_false "k" "7" "v0" "b" 7 (by decide)).2

/-- C3: for every configured environment (both secrets truthy) and every
request whose parsed form body has `type` equal to the handshake marker
`url_verification`, the admission pipeline — and hence every route's POST
handler — responds HTTP 200 with plain-text body exactly the supplied
`challenge` field (empty when absent), regardless of the signature headers,
of the clock, and of the production/non-production mode, and schedules no
deferred work (the event trace holds only the body read). -/
theorem handshake_short_circuits (env : Env) (req : SlackRequest)
    (hs : jsStrTruthy env.slackSigningSecret = true)
    (hk : jsStrTruthy env.claudeApiKey = true)
    (ht : formGet (parseForm req.rawBody) "type" = some "url_verification") :
    validateSlackRequest env req =
      (ValidationResult.reject
        { status := 200
          body := (formGet (parseForm req.rawBody) "challenge").getD ""
          contentType := none },
       [AdmissionEvent.readBody]) ∧
    ∀ (ackText : String) (ackType : ResponseType),
      routePOST ackText ackType env req =
        ({ status := 200
           body := (formGet (parseForm req.rawBody) "challenge").getD ""
           contentType := none },
         [AdmissionEvent.readBody]) := by
  have h1 : validateSlackRequest env req =
      (ValidationResult.reject
        { status := 200
          body := (formGet (parseForm req.rawBody) "challenge").getD ""
          contentType := none },
       [AdmissionEvent.readBody]) := by
    unfold validateSlackRequest
    simp [hs, hk, ht]
  exact ⟨h1, fun a t => by unfold routePOST; rw [h1]⟩

/-- Environment with both secrets present, in production mode. -/
def prodEnv : Env :=
  { slackSigningSecret := some "sec", claudeApiKey := some "key"
    nodeEnv := some "production", nowSec := 0 }

/-- Handshake request carrying a challenge and no signature headers. -/
def handshakeReq : SlackRequest :=
  { rawBody := "type=url_verification&challenge=abc123", signature := none, timestamp := none }

/-- Witness for C3: the concrete handshake body yields 200 with body
`abc123` in production mode with no signature headers. -/
theorem handshake_short_circuits_witness :
    routePOST "ack" ResponseType.ephemeral prodEnv handshakeReq =
      ({ status := 200, body := "abc123", contentType := none },
       [AdmissionEvent.readBody]) := by
  have h := (handshake_short_circuits prodEnv handshakeReq (by decide) (by decide)
    (by decide)).2 "ack" ResponseType.ephemeral
  have hch : (formGet (parseForm handshakeReq.rawBody) "challenge").getD "" = "abc123" := by
    decide
  rw [h, hch]

/-- C7: for every configured environment and non-handshake request: an
absent `x-slack-signature` header makes the Signature Verifier return
false; in production mode a false verifier verdict (absent, stale, or
mismatched signature) makes the pipeline and every route's POST handler
reject with HTTP 401 and schedule no deferred work (the event trace holds
only the body read); in non-production mode the pipeline accepts without
consulting the verifier at all. -/
theorem production_signature_enforcement (env : Env) (req : SlackRequest)
    (hs : jsStrTruthy env.slackSigningSecret = true)
    (hk : jsStrTruthy env.claudeApiKey = true)
    (ht : formGet (parseForm req.rawBody) "type" ≠ some "url_verification") :
    (req.signature = none →
      verifySlackSignature (env.slackSigningSecret.getD "") req.timestamp req.signature
        req.rawBody env.nowSec = false) ∧
    (env.nodeEnv = some "production" →
      verifySlackSignature (env.slackSigningSecret.getD "") req.timestamp req.signature
        req.rawBody env.nowSec = false →
      validateSlackRequest env req =
        (ValidationResult.reject
          { status := 401, body := "Bad signature", contentType := none },
         [AdmissionEvent.readBody]) ∧
      ∀ (ackText : String) (ackType : ResponseType),
        routePOST ackText ackType env req =
          ({ status := 401, body := "Bad signature", contentType := none },
           [AdmissionEvent.readBody])) ∧
    (env.nodeEnv ≠ some "production" →
      validateSlackRequest env req =
        (ValidationResult.accept req.rawBody (env.claudeApiKey.getD ""),
         [AdmissionEvent.readBody])) := by
  refine ⟨?_, ?_, ?_⟩
  · intro hnone
    rw [hnone]
    simp [verifySlackSignature, jsStrTruthy]
  · intro hp hv
    have h1 : validateSlackRequest env req =
        (ValidationResult.reject
          { status := 401, body := "Bad signature", contentType := none },
         [AdmissionEvent.readBody]) := by
      unfold validateSlackRequest
      simp [hs, hk, ht, hp, hv]
    exact ⟨h1, fun a t => by unfold routePOST; rw [h1]⟩
  · intro hnp
    unfold validateSlackRequest
    simp [hs, hk, ht, hnp]

/-- Environment with both secrets present, outside production mode. -/
def devEnv : Env :=
  { slackSigningSecret := some "sec", claudeApiKey := some "key"
    nodeEnv := some "development", nowSec := 0 }

/-- Non-handshake request with no signature headers. -/
def noSigReq : SlackRequest :=
  { rawBody := "text=hi", signature := none, timestamp := none }

/-- Witness for C7: with no signature header, production mode rejects the
concrete request with 401 while development mode accepts it. -/
theorem production_signature_enforcement_witness :
    validateSlackRequest prodEnv noSigReq =
      (ValidationResult.reject
        { status := 401, body := "Bad signature", contentType := none },
       [AdmissionEvent.readBody]) ∧
    validateSlackRequest devEnv noSigReq =
      (ValidationResult.accept "text=hi" "key", [AdmissionEvent.readBody]) := by
  constructor
  · exact ((production_signature_enforcement prodEnv noSigReq (by decide) (by decide)
      (by decide)).2.1 rfl (by decide)).1
  · exact (production_signature_enforcement devEnv noSigReq (by decide) (by decide)
      (by decide)).2.2 (by decide)

/-- C8: for every request, if either required configuration secret is
absent from the environment the pipeline — and every route's POST handler —
returns HTTP 500 with the plain-text body `Missing env vars`, with an empty
event trace: the request body is never read or parsed and no deferred work
is scheduled. -/
theorem missing_config_yields_500 (env : Env) (req : SlackRequest)
    (h : env.slackSigningSecret = none ∨ env.claudeApiKey = none) :
    validateSlackRequest env req =
      (ValidationResult.reject
        { status := 500, body := "Missing env vars", contentType := none }, []) ∧
    ∀ (ackText : String) (ackType : ResponseType),
      routePOST ackText ackType env req =
        ({ status := 500, body := "Missing env vars", contentType := none }, []) := by
  have h1 : (!jsStrTruthy env.slackSigningSecret || !jsStrTruthy env.claudeApiKey) = true := by
    rcases h with h | h <;> rw [h] <;> simp [jsStrTruthy]
  have h2 : validateSlackRequest env req =
      (ValidationResult.reject
        { status := 500, body := "Missing env vars", contentType := none }, []) := by
    unfold validateSlackRequest
    rw [if_pos h1]
  exact ⟨h2, fun a t => by unfold routePOST; rw [h2]⟩

/-- Environment missing the generation-API credential. -/
def noKeyEnv : Env :=
  { slackSigningSecret := some "sec", claudeApiKey := none
    nodeEnv := some "production", nowSec := 0 }

/-- Witness for C8: with the generation-API credential absent, the concrete
request is rejected with 500 and an empty event trace. -/
theorem missing_config_yields_500_witness :
    routePOST "ack" ResponseType.in_channel noKeyEnv noSigReq =
      ({ status := 500, body := "Missing env vars", contentType := none }, []) := by
  exact (missing_config_yields_500 noKeyEnv noSigReq (Or.inr rfl)).2 "ack"
    ResponseType.in_channel

/-- Rendering of a two-field JSON object, spelled out. -/
theorem jsonStringifyObj_pair (k1 k2 : String) (v1 v2 : JsonValue) :
    jsonStringifyObj [(k1, v1), (k2, v2)] =
      "\x7b\"" ++ jsonEscape k1 ++ "\":" ++ jsonPrim v1 ++ ",\"" ++ jsonEscape k2 ++
        "\":" ++ jsonPrim v2 ++ "\x7d" := by
  unfold jsonStringifyObj
  simp only [List.map_cons, List.map_nil]
  simp [String.intercalate, String.intercalate.go]
  apply String.ext
  simp [String.data_append, List.append_assoc]

/-- C10: for every text and response type, the Acknowledgment Responder
returns status 200 with content-type `application/json; charset=utf-8` and
body `JSON.stringify` of the object with fields `response_type` and `text`
in that order (spelled out as an explicit string), and two calls with
identical inputs yield identical (hence byte-identical) bodies. -/
theorem ack_response_idempotent_shape (text : String) (rt : ResponseType) :
    createAckResponse text rt =
      { status := 200
        body := "\x7b\"response_type\":\"" ++ jsonEscape rt.str ++ "\",\"text\":\"" ++
          jsonEscape text ++ "\"\x7d"
        contentType := some "application/json; charset=utf-8" } ∧
    createAckResponse text rt = createAckResponse text rt := by
  refine ⟨?_, rfl⟩
  have hbody : jsonStringifyObj
      [("response_type", JsonValue.str rt.str), ("text", JsonValue.str text)] =
      "\x7b\"response_type\":\"" ++ jsonEscape rt.str ++ "\",\"text\":\"" ++
        jsonEscape text ++ "\"\x7d" := by
    rw [jsonStringifyObj_pair]
    have h1 : jsonEscape "response_type" = "response_type" := by decide
    have h2 : jsonEscape "text" = "text" := by decide
    rw [h1, h2]
    unfold jsonPrim
    apply String.ext
    simp [String.data_append, List.append_assoc]
  unfold createAckResponse
  rw [hbody]

end Sickbot
